import Mathlib

/-!
Shallow embedding of `src/voice_chatbot.py` (VoxBot).

External effects are modelled as explicit parameters:
the outcome of the network probe, the outcome of the remote completion
request, the outcome of each transcription backend, and the wall-clock
reading used by the time reply. Pure control flow is translated directly
from the source.
-/

namespace VoxBot

/-- Failure modes of the connectivity probe request
(`urllib.request.urlopen` in `check_internet_connection`). -/
inductive NetFailure
  | timeout
  | dns
  | refused
  | tls
deriving DecidableEq

/-- Embeds `check_internet_connection` (voice_chatbot.py lines 13-19):
the body tries the request and returns `True`; the bare `except` clause
maps every failure to `False`. -/
def check_internet_connection : Except NetFailure Unit → Bool
  | Except.ok _ => true
  | Except.error _ => false

/-- Naive substring containment on character lists, the semantics of
the Python `in` operator on strings (`key in prompt_lower`). -/
def substr_core (needle : List Char) : List Char → Bool
  | [] => needle.isEmpty
  | c :: rest => needle.isPrefixOf (c :: rest) || substr_core needle rest

/-- `substr_mem key s` embeds the Python expression `key in s`. -/
def substr_mem (key s : String) : Bool :=
  substr_core key.toList s.toList

/-- Embeds the Python `str.lower()`: lower-case every character
(ASCII letters, which is all the source uses). -/
def str_lower (s : String) : String :=
  ⟨s.data.map Char.toLower⟩

/-- Embeds the Python `str.strip()`: drop leading and trailing
whitespace. -/
def str_trim (s : String) : String :=
  ⟨((s.data.dropWhile Char.isWhitespace).reverse.dropWhile Char.isWhitespace).reverse⟩

/-- The value of `responses["default"]` in `generate_fallback_response`. -/
def default_offline_message : String :=
  "I\u0027m currently operating in offline mode. I can only provide basic responses right now."

/-- Embeds the `responses` dict literal of `generate_fallback_response`
(voice_chatbot.py lines 322-333), in insertion order, which is the
iteration order of a Python dict. The time reply embeds the wall-clock
reading `clock` (the Python `time.strftime` call). -/
def fallback_responses (clock : String) : List (String × String) :=
  [("hello", "Hello! How can I help you today?"),
   ("hi", "Hi there! What can I do for you?"),
   ("how are you", "I\u0027m functioning well, thank you for asking!"),
   ("bye", "Goodbye! Have a great day!"),
   ("thank", "You\u0027re welcome!"),
   ("help", "I\u0027m here to help! What do you need assistance with?"),
   ("weather", "I\u0027m sorry, I can\u0027t check the weather right now."),
   ("time", "The current time is " ++ clock),
   ("name", "I\u0027m Sayantan\u0027s Assistant, a voice-enabled chatbot."),
   ("default", default_offline_message)]

/-- Embeds `generate_fallback_response` (voice_chatbot.py lines 318-339):
lower-case the prompt, iterate the dict in insertion order returning the
first value whose key occurs in the lower-cased prompt, else return the
default entry. -/
def generate_fallback_response (clock prompt : String) : String :=
  let prompt_lower := str_lower prompt
  match (fallback_responses clock).find? (fun kv => substr_mem kv.1 prompt_lower) with
  | some kv => kv.2
  | none => default_offline_message

/-- Message roles, as in the dict literals `{"role": ..., "content": ...}`. -/
inductive Role
  | system
  | user
  | assistant
deriving DecidableEq

/-- One entry of `conversation_history`. -/
structure Msg where
  role : Role
  content : String
deriving DecidableEq

/-- The fixed system instruction (voice_chatbot.py lines 279-281). -/
def system_message : Msg :=
  ⟨Role.system, "You are a helpful and friendly AI assistant named Sayantan\u0027s Assistant. You provide clear, concise, and accurate responses."⟩

/-- Initial value of the global `conversation_history`. -/
def conversation_history_init : List Msg :=
  [system_message]

/-- The history as it stands when the completion request is issued:
`conversation_history.append({"role": "user", "content": prompt})` followed by
`if len(conversation_history) > 11: conversation_history.pop(1)`
(voice_chatbot.py lines 294-297). -/
def sent_messages (history : List Msg) (prompt : String) : List Msg :=
  let h1 := history ++ [⟨Role.user, prompt⟩]
  if h1.length > 11 then h1.eraseIdx 1 else h1

/-- Embeds `get_ai_response` (voice_chatbot.py lines 283-316).
Parameters standing for effects: `online` is the result of the
connectivity probe, `is_openai_available` the startup flag, `apiResult`
the outcome of `client.chat.completions.create`, `clock` the wall-clock
reading consumed by the fallback. Returns the reply together with the
updated `conversation_history`. On API failure the `except` branch sets
`ai_response` to the fallback text and control falls through to the
shared `conversation_history.append({"role": "assistant", ...})`. -/
def get_ai_response (online is_openai_available : Bool)
    (apiResult : Except Unit String) (clock : String)
    (history : List Msg) (prompt : String) : String × List Msg :=
  if !online then
    (generate_fallback_response clock prompt, history)
  else if !is_openai_available then
    (generate_fallback_response clock prompt, history)
  else
    let msgs := sent_messages history prompt
    let ai_response :=
      match apiResult with
      | Except.ok content => content
      | Except.error _ => generate_fallback_response clock prompt
    (ai_response, msgs ++ [⟨Role.assistant, ai_response⟩])

/-- Python truthiness of an optional string (`if result:` / `if user_input:`):
`None` and the empty string are falsy. -/
def truthy : Option String → Bool
  | none => false
  | some s => !s.isEmpty

/-- Embeds `listen_with_speech_recognition` (voice_chatbot.py lines 181-200):
returns the recognized text, or `none` on any recognition failure. -/
def listen_with_speech_recognition : Except Unit String → Option String
  | Except.ok text => some text
  | Except.error _ => none

/-- Embeds `listen_with_advanced_methods` (voice_chatbot.py lines 202-243):
on success the whisper transcription is stripped and returned when
non-empty; an empty transcription falls through to the implicit `None`,
and any exception yields `None`. -/
def listen_with_advanced_methods (transcription : Except Unit String) : Option String :=
  match transcription with
  | Except.error _ => none
  | Except.ok raw =>
    let text := str_trim raw
    if text.isEmpty then none else some text

/-- Embeds `listen` (voice_chatbot.py lines 245-258): probe connectivity;
when online and all three capability flags hold, try the advanced path and
return its result if truthy; otherwise fall back to basic recognition. -/
def listen (online WHISPER_AVAILABLE SOUNDDEVICE_AVAILABLE SOUNDFILE_AVAILABLE : Bool)
    (transcription basic : Except Unit String) : Option String :=
  if online && WHISPER_AVAILABLE && SOUNDDEVICE_AVAILABLE && SOUNDFILE_AVAILABLE then
    let result := listen_with_advanced_methods transcription
    if truthy result then result else listen_with_speech_recognition basic
  else
    listen_with_speech_recognition basic

/-- The exit-phrase list of `main` (voice_chatbot.py line 356). -/
def exit_phrases : List String :=
  ["quit", "exit", "bye", "goodbye", "stop"]

/-- What one iteration of the `main` loop does with the value returned by
`listen()`. -/
inductive LoopAction
  | speakFarewellAndExit
  | respond (prompt : String)
  | reprompt
deriving DecidableEq

/-- Embeds one iteration of the `while True` loop in `main`
(voice_chatbot.py lines 352-363): truthy input is matched, lower-cased,
against the exit list; a match speaks the farewell and breaks, otherwise
the input goes to `get_ai_response`; falsy input is re-prompted. -/
def main_step (user_input : Option String) : LoopAction :=
  if truthy user_input then
    let s := user_input.getD ""
    if exit_phrases.contains (str_lower s) then LoopAction.speakFarewellAndExit
    else LoopAction.respond s
  else
    LoopAction.reprompt

/-- The effect parameters of one `get_ai_response` call. -/
structure CallEnv where
  online : Bool
  is_openai_available : Bool
  apiResult : Except Unit String
  clock : String
  prompt : String

/-- The conversation history after one `get_ai_response` call. -/
def step (e : CallEnv) (h : List Msg) : List Msg :=
  (get_ai_response e.online e.is_openai_available e.apiResult e.clock h e.prompt).2

/-- The conversation history after a sequence of `get_ai_response` calls
starting from the initial history. -/
def run (es : List CallEnv) : List Msg :=
  es.foldl (fun h e => step e h) conversation_history_init

/-- One fully successful online call with fixed reply, clock and prompt. -/
def good_call (h : List Msg) : List Msg :=
  (get_ai_response true true (Except.ok "Sure!") "12:00" h "ping").2

/-- `iterate_calls n` is the history after `n` successful calls. -/
def iterate_calls : Nat → List Msg → List Msg
  | 0, h => h
  | n + 1, h => good_call (iterate_calls n h)

/-! ## Helper lemmas -/

lemma good_call_length {h : List Msg} (hlen : 11 ≤ h.length) :
    (good_call h).length = h.length + 1 := by
  have hcond : (h ++ [(⟨Role.user, "ping"⟩ : Msg)]).length > 11 := by
    simp only [List.length_append, List.length_cons, List.length_nil]
    omega
  have h2 : sent_messages h "ping" =
      (h ++ [(⟨Role.user, "ping"⟩ : Msg)]).eraseIdx 1 := by
    simp only [sent_messages]
    rw [if_pos hcond]
  have h3 : (sent_messages h "ping").length = h.length := by
    rw [h2, List.length_eraseIdx]
    simp only [List.length_append, List.length_cons, List.length_nil]
    rw [if_pos (show (1 : Nat) < h.length + (0 + 1) by omega)]
    omega
  have h4 : good_call h =
      sent_messages h "ping" ++ [(⟨Role.assistant, "Sure!"⟩ : Msg)] := by
    simp [good_call, get_ai_response]
  rw [h4, List.length_append, h3]
  rfl

/-! ## Claim theorems -/

/-- C8: `check_internet_connection` is total and collapses every failure
mode of the probe request (timeout, DNS, refused, TLS) to the single
boolean `false`, returning `true` only when the request succeeds. -/
theorem check_internet_connection_total (o : Except NetFailure Unit) :
    (check_internet_connection o = true ↔ o = Except.ok ()) ∧
    check_internet_connection (Except.ok ()) = true ∧
    check_internet_connection (Except.error NetFailure.timeout) = false ∧
    check_internet_connection (Except.error NetFailure.dns) = false ∧
    check_internet_connection (Except.error NetFailure.refused) = false ∧
    check_internet_connection (Except.error NetFailure.tls) = false := by
  refine ⟨?_, by decide, by decide, by decide, by decide, by decide⟩
  cases o with
  | ok u => cases u; simp [check_internet_connection]
  | error e => simp [check_internet_connection]

/-- C7: when the connectivity probe fails or the remote-service capability
was never established, `get_ai_response` returns the fallback reply for
the prompt and leaves the conversation history unchanged. -/
theorem offline_or_unavailable_uses_fallback
    (online avail : Bool) (api : Except Unit String) (clock : String)
    (h : List Msg) (p : String) (hc : online = false ∨ avail = false) :
    get_ai_response online avail api clock h p =
      (generate_fallback_response clock p, h) := by
  rcases hc with rfl | rfl
  · simp [get_ai_response]
  · cases online <;> simp [get_ai_response]

/-- Witness for C7: a concrete offline call. -/
theorem offline_or_unavailable_uses_fallback_witness :
    get_ai_response false true (Except.ok "x") "12:00" conversation_history_init "hello" =
      (generate_fallback_response "12:00" "hello", conversation_history_init) :=
  offline_or_unavailable_uses_fallback false true (Except.ok "x") "12:00"
    conversation_history_init "hello" (Or.inl rfl)

/-- C1 (code bug): the 11-entry cap is NOT maintained. The trim runs only
after the user turn is appended; the assistant turn is then appended
without re-trimming, so after the sixth successful call the history holds
12 entries and it grows by one entry per further call. -/
theorem history_cap_violated :
    (iterate_calls 6 conversation_history_init).length = 12 ∧
    ∀ k : Nat, (iterate_calls (5 + k) conversation_history_init).length = 11 + k := by
  have hmain : ∀ k : Nat,
      (iterate_calls (5 + k) conversation_history_init).length = 11 + k := by
    intro k
    induction k with
    | zero => decide
    | succ n ih =>
      have : iterate_calls (5 + (n + 1)) conversation_history_init =
          good_call (iterate_calls (5 + n) conversation_history_init) := rfl
      rw [this, good_call_length (by omega), ih]
      omega
  exact ⟨hmain 1, hmain⟩

lemma sent_messages_cons (m : Msg) (t : List Msg) (p : String) :
    ∃ t', sent_messages (m :: t) p = m :: t' := by
  simp only [sent_messages, List.cons_append]
  by_cases hc : (m :: (t ++ [(⟨Role.user, p⟩ : Msg)])).length > 11
  · rw [if_pos hc]
    refine ⟨(t ++ [(⟨Role.user, p⟩ : Msg)]).eraseIdx 0, ?_⟩
    rfl
  · rw [if_neg hc]
    exact ⟨t ++ [⟨Role.user, p⟩], rfl⟩

lemma step_cons (e : CallEnv) (m : Msg) (t : List Msg) :
    ∃ t', step e (m :: t) = m :: t' := by
  cases honline : e.online with
  | false =>
    refine ⟨t, ?_⟩
    simp [step, get_ai_response, honline]
  | true =>
    cases havail : e.is_openai_available with
    | false =>
      refine ⟨t, ?_⟩
      simp [step, get_ai_response, honline, havail]
    | true =>
      obtain ⟨t', ht⟩ := sent_messages_cons m t e.prompt
      refine ⟨t' ++ [(⟨Role.assistant,
        match e.apiResult with
        | Except.ok content => content
        | Except.error _ => generate_fallback_response e.clock e.prompt⟩ : Msg)], ?_⟩
      simp only [step, get_ai_response, honline, havail, Bool.not_true,
        Bool.false_eq_true, if_false]
      rw [ht]
      rfl

lemma sent_messages_ends_user (h : List Msg) (p : String) :
    ∃ s, sent_messages h p = s ++ [(⟨Role.user, p⟩ : Msg)] := by
  simp only [sent_messages]
  by_cases hc : (h ++ [(⟨Role.user, p⟩ : Msg)]).length > 11
  · rw [if_pos hc]
    cases h with
    | nil =>
      exfalso
      simp only [List.length_append, List.length_cons, List.length_nil] at hc
      omega
    | cons a t1 =>
      cases t1 with
      | nil =>
        exfalso
        simp only [List.length_append, List.length_cons, List.length_nil] at hc
        omega
      | cons b t =>
        refine ⟨a :: t, ?_⟩
        rfl
  · rw [if_neg hc]
    exact ⟨h, rfl⟩

lemma user_turn_visible_next (s : List Msg) (u a : Msg) (p2 : String) :
    u ∈ sent_messages (s ++ [u, a]) p2 := by
  simp only [sent_messages, List.append_assoc]
  by_cases hc : (s ++ ([u, a] ++ [(⟨Role.user, p2⟩ : Msg)])).length > 11
  · rw [if_pos hc]
    cases s with
    | nil =>
      exfalso
      simp only [List.length_append, List.length_cons, List.length_nil] at hc
      omega
    | cons x t1 =>
      cases t1 with
      | nil =>
        exfalso
        simp only [List.length_append, List.length_cons, List.length_nil] at hc
        omega
      | cons y t =>
        simp only [List.cons_append, List.eraseIdx_cons_succ, List.eraseIdx_cons_zero]
        simp [List.mem_append]
  · rw [if_neg hc]
    simp [List.mem_append]

/-- C5: after any sequence of `get_ai_response` calls, entry 0 of the
conversation history is still the fixed system instruction: eviction only
removes the entry at index 1 and nothing replaces the head. -/
theorem system_entry_preserved (es : List CallEnv) :
    (run es).head? = some system_message := by
  suffices h : ∀ (l : List CallEnv) (t : List Msg),
      (l.foldl (fun h e => step e h) (system_message :: t)).head? = some system_message by
    simpa [run, conversation_history_init] using h es []
  intro l
  induction l with
  | nil => intro t; rfl
  | cons e l ih =>
    intro t
    simp only [List.foldl_cons]
    obtain ⟨t', ht⟩ := step_cons e system_message t
    rw [ht]
    exact ih t'

/-- Counterexample to C2 as stated: a call whose completion request fails
DOES append an assistant turn (carrying the fallback text) to the
conversation history. -/
theorem failed_call_appends_assistant_turn :
    (get_ai_response true true (Except.error ()) "12:00" conversation_history_init "ping").2 =
      [system_message, ⟨Role.user, "ping"⟩, ⟨Role.assistant, default_offline_message⟩] ∧
    (⟨Role.assistant, default_offline_message⟩ : Msg) ∈
      (get_ai_response true true (Except.error ()) "12:00" conversation_history_init "ping").2 := by
  have h1 : (get_ai_response true true (Except.error ()) "12:00"
      conversation_history_init "ping").2 =
      [system_message, ⟨Role.user, "ping"⟩,
        ⟨Role.assistant, default_offline_message⟩] := rfl
  refine ⟨h1, ?_⟩
  rw [h1]
  simp

/-- C2 (amended): on a failed completion request the user turn remains
and the fallback reply is appended as the assistant turn; a subsequent
call still sees the prior user turn in the history it sends. -/
theorem failed_call_keeps_user_turn (clock : String) (h : List Msg) (p p2 : String) :
    get_ai_response true true (Except.error ()) clock h p =
      (generate_fallback_response clock p,
        sent_messages h p ++ [⟨Role.assistant, generate_fallback_response clock p⟩]) ∧
    (⟨Role.user, p⟩ : Msg) ∈ (get_ai_response true true (Except.error ()) clock h p).2 ∧
    (⟨Role.user, p⟩ : Msg) ∈
      sent_messages (get_ai_response true true (Except.error ()) clock h p).2 p2 := by
  have heq : (get_ai_response true true (Except.error ()) clock h p).2 =
      sent_messages h p ++ [⟨Role.assistant, generate_fallback_response clock p⟩] := rfl
  obtain ⟨s, hs⟩ := sent_messages_ends_user h p
  refine ⟨rfl, ?_, ?_⟩
  · rw [heq, hs]
    simp [List.mem_append]
  · rw [heq, hs, List.append_assoc]
    exact user_turn_visible_next s ⟨Role.user, p⟩
      ⟨Role.assistant, generate_fallback_response clock p⟩ p2

/-- C4: the advanced transcription path is consulted exactly when the
connectivity probe and all three capability flags are true; whenever it is
consulted but yields no text (failure or empty transcription), `listen`
returns the basic speech-recognition result; when it yields text, that
text wins. -/
theorem listen_advanced_preference (o w sd sf : Bool) (tr basic : Except Unit String) :
    ((o && w && sd && sf) = false →
      listen o w sd sf tr basic = listen_with_speech_recognition basic) ∧
    ((o && w && sd && sf) = true →
      truthy (listen_with_advanced_methods tr) = false →
      listen o w sd sf tr basic = listen_with_speech_recognition basic) ∧
    ((o && w && sd && sf) = true →
      truthy (listen_with_advanced_methods tr) = true →
      listen o w sd sf tr basic = listen_with_advanced_methods tr) := by
  refine ⟨?_, ?_, ?_⟩
  · intro h
    simp [listen, h]
  · intro h h2
    simp [listen, h, h2]
  · intro h h2
    simp [listen, h, h2]

/-- Witness for C4: all flags true, advanced transcription is whitespace
only, so the basic path result is returned. -/
theorem listen_advanced_preference_witness :
    listen true true true true (Except.ok "   ") (Except.ok "hi there") =
      listen_with_speech_recognition (Except.ok "hi there") :=
  (listen_advanced_preference true true true true (Except.ok "   ")
    (Except.ok "hi there")).2.1 rfl rfl

/-- C6: the conversation loop exits exactly when the lower-cased utterance
is one of quit, exit, bye, goodbye, stop; matching is case-insensitive and
exact, so "Bye" exits while "goodbye now" is passed to the response
selector. -/
theorem exit_phrase_matching (s : String) :
    (main_step (some s) = LoopAction.speakFarewellAndExit ↔ str_lower s ∈ exit_phrases) ∧
    main_step (some "Bye") = LoopAction.speakFarewellAndExit ∧
    main_step (some "goodbye now") = LoopAction.respond "goodbye now" := by
  refine ⟨?_, rfl, rfl⟩
  cases he : s.isEmpty with
  | true =>
    have hs0 : s = "" := (String.isEmpty_iff s).mp he
    subst hs0
    decide
  | false =>
    simp [main_step, truthy, he]

/-- C3: `generate_fallback_response` returns the canned reply of the first
matching trigger in table order (hello, hi, how are you, bye, thank, help,
weather, time, name); with no matching trigger it returns the fixed
default-offline message; and on "Hello, how are you?" the hello reply wins
because hello precedes how-are-you in the table. -/
theorem fallback_first_trigger (clock p : String) :
    (substr_mem "hello" (str_lower p) = true →
      generate_fallback_response clock p = "Hello! How can I help you today?") ∧
    (substr_mem "hello" (str_lower p) = false →
      substr_mem "hi" (str_lower p) = true →
      generate_fallback_response clock p = "Hi there! What can I do for you?") ∧
    (substr_mem "hello" (str_lower p) = false →
      substr_mem "hi" (str_lower p) = false →
      substr_mem "how are you" (str_lower p) = true →
      generate_fallback_response clock p = "I'm functioning well, thank you for asking!") ∧
    (substr_mem "hello" (str_lower p) = false →
      substr_mem "hi" (str_lower p) = false →
      substr_mem "how are you" (str_lower p) = false →
      substr_mem "bye" (str_lower p) = true →
      generate_fallback_response clock p = "Goodbye! Have a great day!") ∧
    (substr_mem "hello" (str_lower p) = false →
      substr_mem "hi" (str_lower p) = false →
      substr_mem "how are you" (str_lower p) = false →
      substr_mem "bye" (str_lower p) = false →
      substr_mem "thank" (str_lower p) = true →
      generate_fallback_response clock p = "You're welcome!") ∧
    (substr_mem "hello" (str_lower p) = false →
      substr_mem "hi" (str_lower p) = false →
      substr_mem "how are you" (str_lower p) = false →
      substr_mem "bye" (str_lower p) = false →
      substr_mem "thank" (str_lower p) = false →
      substr_mem "help" (str_lower p) = true →
      generate_fallback_response clock p = "I'm here to help! What do you need assistance with?") ∧
    (substr_mem "hello" (str_lower p) = false →
      substr_mem "hi" (str_lower p) = false →
      substr_mem "how are you" (str_lower p) = false →
      substr_mem "bye" (str_lower p) = false →
      substr_mem "thank" (str_lower p) = false →
      substr_mem "help" (str_lower p) = false →
      substr_mem "weather" (str_lower p) = true →
      generate_fallback_response clock p = "I'm sorry, I can't check the weather right now.") ∧
    (substr_mem "hello" (str_lower p) = false →
      substr_mem "hi" (str_lower p) = false →
      substr_mem "how are you" (str_lower p) = false →
      substr_mem "bye" (str_lower p) = false →
      substr_mem "thank" (str_lower p) = false →
      substr_mem "help" (str_lower p) = false →
      substr_mem "weather" (str_lower p) = false →
      substr_mem "time" (str_lower p) = true →
      generate_fallback_response clock p = "The current time is " ++ clock) ∧
    (substr_mem "hello" (str_lower p) = false →
      substr_mem "hi" (str_lower p) = false →
      substr_mem "how are you" (str_lower p) = false →
      substr_mem "bye" (str_lower p) = false →
      substr_mem "thank" (str_lower p) = false →
      substr_mem "help" (str_lower p) = false →
      substr_mem "weather" (str_lower p) = false →
      substr_mem "time" (str_lower p) = false →
      substr_mem "name" (str_lower p) = true →
      generate_fallback_response clock p = "I'm Sayantan's Assistant, a voice-enabled chatbot.") ∧
    (substr_mem "hello" (str_lower p) = false →
      substr_mem "hi" (str_lower p) = false →
      substr_mem "how are you" (str_lower p) = false →
      substr_mem "bye" (str_lower p) = false →
      substr_mem "thank" (str_lower p) = false →
      substr_mem "help" (str_lower p) = false →
      substr_mem "weather" (str_lower p) = false →
      substr_mem "time" (str_lower p) = false →
      substr_mem "name" (str_lower p) = false →
      generate_fallback_response clock p = default_offline_message) ∧
    generate_fallback_response clock "Hello, how are you?" = "Hello! How can I help you today?" := by
  refine ⟨?_, ?_, ?_, ?_, ?_, ?_, ?_, ?_, ?_, ?_, ?_⟩
  · intro h1
    simp [generate_fallback_response, fallback_responses, h1]
  · intro h1 h2
    simp [generate_fallback_response, fallback_responses, h1, h2]
  · intro h1 h2 h3
    simp [generate_fallback_response, fallback_responses, h1, h2, h3]
  · intro h1 h2 h3 h4
    simp [generate_fallback_response, fallback_responses, h1, h2, h3, h4]
  · intro h1 h2 h3 h4 h5
    simp [generate_fallback_response, fallback_responses, h1, h2, h3, h4, h5]
  · intro h1 h2 h3 h4 h5 h6
    simp [generate_fallback_response, fallback_responses, h1, h2, h3, h4, h5, h6]
  · intro h1 h2 h3 h4 h5 h6 h7
    simp [generate_fallback_response, fallback_responses, h1, h2, h3, h4, h5, h6, h7]
  · intro h1 h2 h3 h4 h5 h6 h7 h8
    simp [generate_fallback_response, fallback_responses, h1, h2, h3, h4, h5, h6, h7, h8]
  · intro h1 h2 h3 h4 h5 h6 h7 h8 h9
    simp [generate_fallback_response, fallback_responses, h1, h2, h3, h4, h5, h6, h7, h8, h9]
  · intro h1 h2 h3 h4 h5 h6 h7 h8 h9
    cases hd : substr_mem "default" (str_lower p) with
    | true =>
      simp [generate_fallback_response, fallback_responses,
        h1, h2, h3, h4, h5, h6, h7, h8, h9, hd]
    | false =>
      simp [generate_fallback_response, fallback_responses,
        h1, h2, h3, h4, h5, h6, h7, h8, h9, hd]
  · rfl

/-- Witness for C3: "say hi" misses the hello trigger and hits the hi
trigger. -/
theorem fallback_first_trigger_witness :
    generate_fallback_response "12:00" "say hi" = "Hi there! What can I do for you?" :=
  (fallback_first_trigger "12:00" "say hi").2.1 rfl rfl

/-- Counterexample to C9 as stated: two invocations with the same prompt
"time" at different wall-clock readings return different texts, because
the time reply embeds the current time. -/
theorem fallback_time_reply_depends_on_clock :
    generate_fallback_response "08:00" "time" ≠ generate_fallback_response "09:00" "time" := by
  decide

/-- C9 (amended): `generate_fallback_response` is a pure function of the
prompt and the wall-clock reading, and mutates nothing; whenever the
lower-cased prompt does not contain the "time" trigger, any two
invocations with the same prompt return the same text regardless of the
clock. -/
theorem fallback_deterministic (c1 c2 p : String)
    (ht : substr_mem "time" (str_lower p) = false) :
    generate_fallback_response c1 p = generate_fallback_response c2 p := by
  cases h1 : substr_mem "hello" (str_lower p) with
  | true => simp [generate_fallback_response, fallback_responses, h1]
  | false =>
  cases h2 : substr_mem "hi" (str_lower p) with
  | true => simp [generate_fallback_response, fallback_responses, h1, h2]
  | false =>
  cases h3 : substr_mem "how are you" (str_lower p) with
  | true => simp [generate_fallback_response, fallback_responses, h1, h2, h3]
  | false =>
  cases h4 : substr_mem "bye" (str_lower p) with
  | true => simp [generate_fallback_response, fallback_responses, h1, h2, h3, h4]
  | false =>
  cases h5 : substr_mem "thank" (str_lower p) with
  | true => simp [generate_fallback_response, fallback_responses, h1, h2, h3, h4, h5]
  | false =>
  cases h6 : substr_mem "help" (str_lower p) with
  | true => simp [generate_fallback_response, fallback_responses, h1, h2, h3, h4, h5, h6]
  | false =>
  cases h7 : substr_mem "weather" (str_lower p) with
  | true =>
    simp [generate_fallback_response, fallback_responses, h1, h2, h3, h4, h5, h6, h7]
  | false =>
  cases h9 : substr_mem "name" (str_lower p) with
  | true =>
    simp [generate_fallback_response, fallback_responses, h1, h2, h3, h4, h5, h6, h7, ht, h9]
  | false =>
  cases hd : substr_mem "default" (str_lower p) with
  | true =>
    simp [generate_fallback_response, fallback_responses,
      h1, h2, h3, h4, h5, h6, h7, ht, h9, hd]
  | false =>
    simp [generate_fallback_response, fallback_responses,
      h1, h2, h3, h4, h5, h6, h7, ht, h9, hd]

/-- Witness for C9 (amended): the prompt "hello" yields the same reply at
two different clock readings. -/
theorem fallback_deterministic_witness :
    substr_mem "time" (str_lower "hello") = false ∧
    generate_fallback_response "08:00" "hello" = generate_fallback_response "09:00" "hello" :=
  ⟨rfl, fallback_deterministic "08:00" "09:00" "hello" rfl⟩

/-- C10: trigger matching is bare substring containment over all ten table
keys including "default": every table hit means the key occurs inside the
lower-cased prompt; "sometimes" contains "time" and yields the time reply;
a prompt containing "default" returns the default-offline message through
an ordinary table match on the tenth key. -/
theorem fallback_matches_substring_everywhere (c p : String) :
    (∀ e : String × String,
      (fallback_responses c).find? (fun kv => substr_mem kv.1 (str_lower p)) = some e →
      substr_mem e.1 (str_lower p) = true ∧ e ∈ fallback_responses c) ∧
    generate_fallback_response c "sometimes" = "The current time is " ++ c ∧
    generate_fallback_response c "default" = default_offline_message ∧
    (fallback_responses c).find? (fun kv => substr_mem kv.1 (str_lower "default")) =
      some ("default", default_offline_message) := by
  refine ⟨?_, ?_, ?_, ?_⟩
  · intro e he
    have hp := List.find?_some he
    have hm := List.mem_of_find?_eq_some he
    exact ⟨hp, hm⟩
  · have h1 : substr_mem "hello" (str_lower "sometimes") = false := rfl
    have h2 : substr_mem "hi" (str_lower "sometimes") = false := rfl
    have h3 : substr_mem "how are you" (str_lower "sometimes") = false := rfl
    have h4 : substr_mem "bye" (str_lower "sometimes") = false := rfl
    have h5 : substr_mem "thank" (str_lower "sometimes") = false := rfl
    have h6 : substr_mem "help" (str_lower "sometimes") = false := rfl
    have h7 : substr_mem "weather" (str_lower "sometimes") = false := rfl
    have h8 : substr_mem "time" (str_lower "sometimes") = true := rfl
    simp [generate_fallback_response, fallback_responses, h1, h2, h3, h4, h5, h6, h7, h8]
  · have h1 : substr_mem "hello" (str_lower "default") = false := rfl
    have h2 : substr_mem "hi" (str_lower "default") = false := rfl
    have h3 : substr_mem "how are you" (str_lower "default") = false := rfl
    have h4 : substr_mem "bye" (str_lower "default") = false := rfl
    have h5 : substr_mem "thank" (str_lower "default") = false := rfl
    have h6 : substr_mem "help" (str_lower "default") = false := rfl
    have h7 : substr_mem "weather" (str_lower "default") = false := rfl
    have h8 : substr_mem "time" (str_lower "default") = false := rfl
    have h9 : substr_mem "name" (str_lower "default") = false := rfl
    have hd : substr_mem "default" (str_lower "default") = true := rfl
    simp [generate_fallback_response, fallback_responses,
      h1, h2, h3, h4, h5, h6, h7, h8, h9, hd]
  · have h1 : substr_mem "hello" (str_lower "default") = false := rfl
    have h2 : substr_mem "hi" (str_lower "default") = false := rfl
    have h3 : substr_mem "how are you" (str_lower "default") = false := rfl
    have h4 : substr_mem "bye" (str_lower "default") = false := rfl
    have h5 : substr_mem "thank" (str_lower "default") = false := rfl
    have h6 : substr_mem "help" (str_lower "default") = false := rfl
    have h7 : substr_mem "weather" (str_lower "default") = false := rfl
    have h8 : substr_mem "time" (str_lower "default") = false := rfl
    have h9 : substr_mem "name" (str_lower "default") = false := rfl
    have hd : substr_mem "default" (str_lower "default") = true := rfl
    simp [fallback_responses, h1, h2, h3, h4, h5, h6, h7, h8, h9, hd]

/-- Witness for C10: the table hit for "sometimes" is the time key, which
indeed occurs inside the prompt. -/
theorem fallback_matches_substring_everywhere_witness :
    substr_mem "time" (str_lower "sometimes") = true ∧
    ("time", "The current time is 12:00") ∈ fallback_responses "12:00" :=
  (fallback_matches_substring_everywhere "12:00" "sometimes").1
    ("time", "The current time is 12:00") rfl

end VoxBot
